import Mathlib

/-!
Shallow embedding of the kmscon uterm input subsystem: the pointer state
machine of src/uterm_input_pointer.c, the device probing, construction and
teardown of src/uterm_input.c, and the underline geometry of
src/font_freetype.c.  Machine integers that the claims exercise are modelled
as unbounded Int (the internal header uterm_input_internal.h is not among the
sources, so the cursor fields are taken at their mathematical value); the one
place where a C width conversion matters, the uint64_t cast of the elapsed
double-click time, is modelled explicitly with a modulus.  C integer division
(truncation toward zero) is Int.tdiv; arithmetic right shifts are floor
division by a power of two.  Hook invocations are modelled as an output list
of pointer events; event-loop side effects (the inactivity timer) and the
external keyboard adapter are outside the model, as they never touch the
pointer state or the pointer hook.
-/

namespace KmsconInput

/-! Linux input-event-codes constants used by the sources. -/

def EV_SYN : Nat := 0
def EV_KEY : Nat := 1
def EV_REL : Nat := 2
def EV_ABS : Nat := 3
def EV_LED : Nat := 17

def REL_X : Nat := 0
def REL_Y : Nat := 1
def REL_WHEEL : Nat := 8

def ABS_X : Nat := 0
def ABS_Y : Nat := 1

def BTN_LEFT : Nat := 272
def BTN_RIGHT : Nat := 273
def BTN_MIDDLE : Nat := 274
def BTN_TOUCH : Nat := 330
def BTN_TOOL_DOUBLETAP : Nat := 333
def BTN_TOOL_TRIPLETAP : Nat := 334

/-- KEY_RESERVED, the lower end of the keyboard-key probe loop. -/
def KEY_RESERVED : Nat := 0

/-- KEY_MIN_INTERESTING is KEY_MUTE (113) in input-event-codes.h. -/
def KEY_MIN_INTERESTING : Nat := 113

/-- enum for the pointer kind, mirroring POINTER_NONE and friends. -/
inductive PointerKind
  | POINTER_NONE
  | POINTER_MOUSE
  | POINTER_VMOUSE
  | POINTER_TOUCHPAD
deriving DecidableEq, Repr

/-- enum for the pressed_button field (initialized, never updated, in these
sources). -/
inductive PressedButton
  | BUTTON_NONE
  | BUTTON_LEFT
  | BUTTON_RIGHT
  | BUTTON_MIDDLE
deriving DecidableEq, Repr

/-- struct timespec, with mathematical-integer fields. -/
structure Timespec where
  tv_sec : Int
  tv_nsec : Int
deriving DecidableEq, Repr

/-- The pointer part of struct uterm_input_dev. -/
structure PointerState where
  kind : PointerKind
  x : Int
  y : Int
  off_x : Int
  off_y : Int
  touchpaddown : Bool
  min_x : Int
  max_x : Int
  min_y : Int
  max_y : Int
  last_click : Timespec
  pressed_button : PressedButton
deriving DecidableEq, Repr

/-- struct uterm_input_pointer_event, as a tagged union. -/
inductive PointerEvent
  | MOVED (pointer_x pointer_y : Int)
  | WHEEL (wheel : Int)
  | BUTTON (button : Nat) (pressed : Bool) (double_click : Bool)
  | SYNC
  | HIDE_TIMEOUT
deriving DecidableEq, Repr

/-- pointer_dev_sync: emit SYNC on the pointer hook, then (after the timer
re-arm, which is outside the model) clear the touchpaddown flag. -/
def pointer_dev_sync (st : PointerState) : PointerState × List PointerEvent :=
  ({ st with touchpaddown := false }, [PointerEvent.SYNC])

/-- pointer_dev_rel: accumulate REL_X and REL_Y into the cursor with the two
sequential edge clamps of the source, emitting MOVED; REL_WHEEL emits WHEEL
directly. -/
def pointer_dev_rel (pmax_x pmax_y : Int) (st : PointerState) (code : Nat) (value : Int) :
    PointerState × List PointerEvent :=
  if code = REL_X then
    let x1 := st.x + value
    let x2 := if x1 < 0 then (0 : Int) else x1
    let x3 := if x2 > pmax_x then pmax_x else x2
    ({ st with x := x3 }, [PointerEvent.MOVED x3 st.y])
  else if code = REL_Y then
    let y1 := st.y + value
    let y2 := if y1 < 0 then (0 : Int) else y1
    let y3 := if y2 > pmax_y then pmax_y else y2
    ({ st with y := y3 }, [PointerEvent.MOVED st.x y3])
  else if code = REL_WHEEL then
    (st, [PointerEvent.WHEEL value])
  else
    (st, [])

/-- pointer_dev_abs: the TOUCHPAD branch re-anchors the drag offset while the
touchpaddown flag is set and rebalances it at either clamped edge; the VMOUSE
branch linearly rescales with C truncating division, where a zero calibration
span hits the division error branch, modelled as none; other kinds return
without emitting.  The MOVED emission after the switch is reached only through
the X and Y cases that did not return early. -/
def pointer_dev_abs (pmax_x pmax_y : Int) (st : PointerState) (code : Nat) (value : Int) :
    Option (PointerState × List PointerEvent) :=
  if code = ABS_X then
    if st.kind = PointerKind.POINTER_TOUCHPAD then
      let off0 := if st.touchpaddown then st.x - value else st.off_x
      let x1 := off0 + value
      let x2 := if x1 < 0 then (0 : Int) else x1
      let o2 := if x1 < 0 then -value else off0
      let x3 := if x2 > pmax_x then pmax_x else x2
      let o3 := if x2 > pmax_x then pmax_x - value else o2
      some ({ st with x := x3, off_x := o3 }, [PointerEvent.MOVED x3 st.y])
    else if st.kind = PointerKind.POINTER_VMOUSE then
      if st.max_x - st.min_x = 0 then none
      else
        let x3 := Int.tdiv ((value - st.min_x) * pmax_x) (st.max_x - st.min_x)
        some ({ st with x := x3 }, [PointerEvent.MOVED x3 st.y])
    else
      some (st, [])
  else if code = ABS_Y then
    if st.kind = PointerKind.POINTER_TOUCHPAD then
      let off0 := if st.touchpaddown then st.y - value else st.off_y
      let y1 := off0 + value
      let y2 := if y1 < 0 then (0 : Int) else y1
      let o2 := if y1 < 0 then -value else off0
      let y3 := if y2 > pmax_y then pmax_y else y2
      let o3 := if y2 > pmax_y then pmax_y - value else o2
      some ({ st with y := y3, off_y := o3 }, [PointerEvent.MOVED st.x y3])
    else if st.kind = PointerKind.POINTER_VMOUSE then
      if st.max_y - st.min_y = 0 then none
      else
        let y3 := Int.tdiv ((value - st.min_y) * pmax_y) (st.max_y - st.min_y)
        some ({ st with y := y3 }, [PointerEvent.MOVED st.x y3])
    else
      some (st, [])
  else
    some (st, [])

/-- The millisecond distance the source computes between two CLOCK_MONOTONIC
samples: seconds difference times 1000 plus the truncated nanosecond
difference over 1e6. -/
def elapsed_ms (last now : Timespec) : Int :=
  (now.tv_sec - last.tv_sec) * 1000 + Int.tdiv (now.tv_nsec - last.tv_nsec) 1000000

/-- The uint64_t conversion the source applies when storing the elapsed
milliseconds into the unsigned local. -/
def elapsed_u64 (last now : Timespec) : Int :=
  elapsed_ms last now % (2 : Int) ^ 64

/-- pointer_dev_button: decode BTN codes to logical buttons; a BTN_LEFT press
computes the double-click flag from the monotonic clock sample taken at
processing time (the now argument) and updates last_click; BTN_TOUCH only
sets the touchpaddown flag. -/
def pointer_dev_button (now : Timespec) (st : PointerState) (code : Nat) (value : Int) :
    PointerState × List PointerEvent :=
  let pressed := value = 1
  if code = BTN_LEFT then
    if value = 1 then
      let dbl := decide (elapsed_u64 st.last_click now < 500)
      ({ st with last_click := now }, [PointerEvent.BUTTON 0 true dbl])
    else
      (st, [PointerEvent.BUTTON 0 false false])
  else if code = BTN_RIGHT then
    (st, [PointerEvent.BUTTON 1 (decide pressed) false])
  else if code = BTN_TOOL_DOUBLETAP ∨ code = BTN_TOOL_TRIPLETAP ∨ code = BTN_MIDDLE then
    (st, [PointerEvent.BUTTON 2 (decide pressed) false])
  else if code = BTN_TOUCH then
    ({ st with touchpaddown := true }, [])
  else
    (st, [])

/-- notify_event: dispatch one input_event record by type.  The keyboard
adapter call for EV_KEY on a KEYS device is an external collaborator that
does not touch the pointer state or the pointer hook, so it is not part of
the model; the pointer button decoder runs unconditionally, as in the
source. -/
def notify_event (pmax_x pmax_y : Int) (now : Timespec) (st : PointerState)
    (type code : Nat) (value : Int) : Option (PointerState × List PointerEvent) :=
  if type = EV_KEY then
    some (pointer_dev_button now st code value)
  else if type = EV_REL then
    some (pointer_dev_rel pmax_x pmax_y st code value)
  else if type = EV_ABS then
    pointer_dev_abs pmax_x pmax_y st code value
  else if type = EV_SYN then
    some (pointer_dev_sync st)
  else
    some (st, [])

/-- One input_event record together with the monotonic clock sample current
when it is processed. -/
structure InputEvent where
  now : Timespec
  type : Nat
  code : Nat
  value : Int
deriving DecidableEq, Repr

/-- Feed a sequence of input_event records through notify_event, collecting
every pointer event emitted on the pointer hook. -/
def run_events (pmax_x pmax_y : Int) (st : PointerState) :
    List InputEvent → Option (PointerState × List PointerEvent)
  | [] => some (st, [])
  | e :: rest =>
    match notify_event pmax_x pmax_y e.now st e.type e.code e.value with
    | none => none
    | some (st1, out1) =>
      match run_events pmax_x pmax_y st1 rest with
      | none => none
      | some (st2, out2) => some (st2, out1 ++ out2)

/-! Capability probing and device construction (src/uterm_input.c). -/

/-- The capability bitmask enum uterm_input_device_capability, one Bool per
flag. -/
structure Capabilities where
  keys : Bool
  leds : Bool
  rel : Bool
  abs : Bool
  mouse_btn : Bool
  touch : Bool
  wheel : Bool
deriving DecidableEq, Repr

/-- The zero capability mask. -/
def noCaps : Capabilities :=
  { keys := false, leds := false, rel := false, abs := false,
    mouse_btn := false, touch := false, wheel := false }

/-- The kernel-side view of an evdev node as probe_device_capabilities sees
it: whether open succeeds, whether each EVIOCGBIT ioctl succeeds, and the
four bitmaps it can read. -/
structure EvdevNode where
  open_ok : Bool
  evbits_ok : Bool
  evbits : Nat → Bool
  keybits_ok : Bool
  keybits : Nat → Bool
  relbits_ok : Bool
  relbits : Nat → Bool
  absbits_ok : Bool
  absbits : Nat → Bool

/-- probe_device_capabilities: a failed open or any failed ioctl yields zero
capabilities (the err_ioctl path discards what was already accumulated);
otherwise the flags are read off the bitmaps exactly as in the source,
including the KEY_RESERVED..KEY_MIN_INTERESTING keyboard-key scan. -/
def probe_device_capabilities (node : EvdevNode) : Capabilities :=
  if node.open_ok = false then noCaps
  else if node.evbits_ok = false then noCaps
  else if node.evbits EV_KEY && !node.keybits_ok then noCaps
  else if node.evbits EV_SYN && node.evbits EV_REL && !node.relbits_ok then noCaps
  else if node.evbits EV_SYN && node.evbits EV_ABS && !node.absbits_ok then noCaps
  else
    { keys := node.evbits EV_KEY && (List.range (KEY_MIN_INTERESTING + 1)).any node.keybits
      mouse_btn := node.evbits EV_KEY && node.keybits BTN_LEFT
      touch := node.evbits EV_KEY && node.keybits BTN_TOUCH
      rel := node.evbits EV_SYN && node.evbits EV_REL &&
             node.relbits REL_X && node.relbits REL_Y
      wheel := node.evbits EV_SYN && node.evbits EV_REL && node.relbits REL_WHEEL
      abs := node.evbits EV_SYN && node.evbits EV_ABS &&
             node.absbits ABS_X && node.absbits ABS_Y
      leds := node.evbits EV_LED }

/-- The decision uterm_input_add_dev makes after probing: KEYS always wins;
otherwise one of the three pointer combinations creates a device only when
the mouse flag is set. -/
def uterm_input_add_dev_creates (node : EvdevNode) (mouse : Bool) : Bool :=
  let c := probe_device_capabilities node
  if c.keys then true
  else if (c.rel && c.mouse_btn) || (c.abs && c.touch) || (c.abs && c.mouse_btn) then mouse
  else false

/-- uterm_input_add_dev at the device-list level: when a device is created,
input_new_dev links it at the front of the intrusive list (shl_dlist_link
inserts right after the list head); otherwise the list is unchanged. -/
def uterm_input_add_dev (devices : List String) (node : EvdevNode) (name : String)
    (mouse : Bool) : List String :=
  if uterm_input_add_dev_creates node mouse then name :: devices else devices

/-- struct input_absinfo, the two fields the source reads. -/
structure AbsInfo where
  minimum : Int
  maximum : Int
deriving DecidableEq, Repr

/-- The kernel-side view of a node as input_init_abs sees it: whether open
succeeds and what each EVIOCGABS ioctl returns (none modelling an ioctl
failure). -/
structure AbsProbe where
  open_ok : Bool
  absinfo_x : Option AbsInfo
  absinfo_y : Option AbsInfo
deriving DecidableEq, Repr

/-- input_init_abs: a failed open returns success with the calibration fields
untouched; a failed EVIOCGABS ioctl propagates the error (none); otherwise
the four calibration fields are filled in. -/
def input_init_abs (node : AbsProbe) (st : PointerState) : Option PointerState :=
  if node.open_ok = false then some st
  else
    match node.absinfo_x with
    | none => none
    | some ix =>
      let st1 := { st with min_x := ix.minimum, max_x := ix.maximum }
      match node.absinfo_y with
      | none => none
      | some iy => some { st1 with min_y := iy.minimum, max_y := iy.maximum }

/-- The zero-initialized pointer state of a freshly allocated device
(memset plus the two explicit initializations in input_new_dev). -/
def fresh_pointer : PointerState :=
  { kind := PointerKind.POINTER_NONE, x := 0, y := 0, off_x := 0, off_y := 0,
    touchpaddown := false, min_x := 0, max_x := 0, min_y := 0, max_y := 0,
    last_click := ⟨0, 0⟩, pressed_button := PressedButton.BUTTON_NONE }

/-- The pointer-relevant part of input_new_dev: for an ABS device run
input_init_abs (failure aborts construction), then pick TOUCHPAD or VMOUSE;
a REL capability overrides the kind to MOUSE. -/
def input_new_dev_pointer (caps : Capabilities) (node : AbsProbe) : Option PointerState :=
  let st0 := fresh_pointer
  let stepAbs : Option PointerState :=
    if caps.abs then
      match input_init_abs node st0 with
      | none => none
      | some st1 =>
        some { st1 with kind := if caps.touch then PointerKind.POINTER_TOUCHPAD
                                else PointerKind.POINTER_VMOUSE }
    else some st0
  match stepAbs with
  | none => none
  | some st2 =>
    some (if caps.rel then { st2 with kind := PointerKind.POINTER_MOUSE } else st2)

/-! Manager teardown (uterm_input_unref). -/

/-- The externally observable teardown steps uterm_input_unref can take. -/
inductive TeardownAction
  | free_dev (node : String)
  | uxkb_desc_destroy
  | hook_free_key
  | hook_free_pointer
  | eloop_unref
  | free_input
deriving DecidableEq, Repr

/-- The manager fields uterm_input_unref consults: the reference count and
the device list in traversal order (front of the list first). -/
structure InputManager where
  ref : Nat
  devices : List String
deriving DecidableEq, Repr

/-- uterm_input_unref: a zero refcount or a remaining reference returns
without acting; the final unref frees every device in list order, destroys
the keymap description, frees the key hook, unrefs the event loop and frees
the manager.  This is the complete action list of the source: the pointer
hook and the hide-pointer timer do not appear in it. -/
def uterm_input_unref (input : InputManager) : InputManager × List TeardownAction :=
  if input.ref = 0 then (input, [])
  else if input.ref - 1 ≠ 0 then ({ input with ref := input.ref - 1 }, [])
  else
    ({ ref := 0, devices := [] },
     input.devices.map TeardownAction.free_dev ++
       [TeardownAction.uxkb_desc_destroy, TeardownAction.hook_free_key,
        TeardownAction.eloop_unref, TeardownAction.free_input])

/-! Underline geometry (draw_underline of src/font_freetype.c). -/

/-- The stripe draw_underline paints: starting row and row count. -/
structure UnderlineSpec where
  position : Int
  thickness : Int
deriving DecidableEq, Repr

/-- draw_underline, after the two FT_MulFix scalings: the arguments are the
already scaled underline thickness and position together with the scaled
ascender and the buffer height.  Right shifts are arithmetic, hence floor
division by powers of two. -/
def draw_underline (height ascender thickness_scaled position_scaled : Int) : UnderlineSpec :=
  let t1 := (thickness_scaled + thickness_scaled / 2) / 64
  let p1 := (ascender - position_scaled) / 64
  let t2 := if t1 < 1 ∨ t1 > height / 4 then 1 else t1
  let p2 := if p1 + t2 > height then height - t2 else p1
  { position := p2, thickness := t2 }

/-! Derived notions used by the theorems. -/

/-- The cursor-bounds invariant of the spec, section 3. -/
def in_bounds (pmax_x pmax_y : Int) (st : PointerState) : Prop :=
  0 ≤ st.x ∧ st.x ≤ pmax_x ∧ 0 ≤ st.y ∧ st.y ≤ pmax_y

/-- The fields of the pointer state that no event handler changes: the kind
and the absolute-axis calibration. -/
def statics (st : PointerState) : PointerKind × Int × Int × Int × Int :=
  (st.kind, st.min_x, st.max_x, st.min_y, st.max_y)

/-- The range condition on an absolute-axis record for a VMOUSE device: its
value lies within the calibration interval of its axis. -/
def vmouse_abs_in_range (st : PointerState) (e : InputEvent) : Prop :=
  st.kind = PointerKind.POINTER_VMOUSE → e.type = EV_ABS →
    (e.code = ABS_X → st.min_x ≤ e.value ∧ e.value ≤ st.max_x) ∧
    (e.code = ABS_Y → st.min_y ≤ e.value ∧ e.value ≤ st.max_y)

/-! Helper lemmas. -/

/-- C truncating division of a nonnegative numerator by a positive divisor is
nonnegative and bounded by any m with numerator at most divisor times m. -/
theorem tdiv_nonneg_le {a d m : Int} (hd : 0 < d) (ha : 0 ≤ a) (ham : a ≤ d * m) :
    0 ≤ Int.tdiv a d ∧ Int.tdiv a d ≤ m := by
  rw [Int.tdiv_eq_ediv ha (le_of_lt hd)]
  refine ⟨Int.ediv_nonneg ha (le_of_lt hd), ?_⟩
  calc a / d ≤ d * m / d := Int.ediv_le_ediv hd ham
    _ = m := Int.mul_ediv_cancel_left m (ne_of_gt hd)

/-- Unpack an equality of statics tuples into field equalities. -/
theorem statics_fields {st1 st2 : PointerState} (h : statics st1 = statics st2) :
    st1.kind = st2.kind ∧ st1.min_x = st2.min_x ∧ st1.max_x = st2.max_x ∧
    st1.min_y = st2.min_y ∧ st1.max_y = st2.max_y := by
  unfold statics at h
  simpa using h

/-- The range condition only depends on the static fields. -/
theorem vmouse_abs_in_range_congr {st1 st2 : PointerState}
    (h : statics st1 = statics st2) (e : InputEvent) :
    vmouse_abs_in_range st2 e → vmouse_abs_in_range st1 e := by
  obtain ⟨hk, h1, h2, h3, h4⟩ := statics_fields h
  unfold vmouse_abs_in_range
  rw [hk, h1, h2, h3, h4]
  exact id

/-- The button decoder never clears a set touchpad-down flag. -/
theorem pointer_dev_button_flag (now : Timespec) (st : PointerState) (code : Nat)
    (value : Int) (h : st.touchpaddown = true) :
    (pointer_dev_button now st code value).1.touchpaddown = true := by
  simp only [pointer_dev_button]
  split
  · split
    · exact h
    · exact h
  · split
    · exact h
    · split
      · exact h
      · split
        · rfl
        · exact h

/-- The relative-axis handler never touches the touchpad-down flag. -/
theorem pointer_dev_rel_flag (pmax_x pmax_y : Int) (st : PointerState) (code : Nat)
    (value : Int) :
    (pointer_dev_rel pmax_x pmax_y st code value).1.touchpaddown = st.touchpaddown := by
  simp only [pointer_dev_rel]
  split
  · rfl
  · split
    · rfl
    · split
      · rfl
      · rfl

/-- The absolute-axis handler never touches the touchpad-down flag. -/
theorem pointer_dev_abs_flag (pmax_x pmax_y : Int) (st : PointerState) (code : Nat)
    (value : Int) (p : PointerState × List PointerEvent)
    (h : pointer_dev_abs pmax_x pmax_y st code value = some p) :
    p.1.touchpaddown = st.touchpaddown := by
  unfold pointer_dev_abs at h
  split at h
  · split at h
    · injection h with h
      subst h
      rfl
    · split at h
      · split at h
        · injection h
        · injection h with h
          subst h
          rfl
      · injection h with h
        subst h
        rfl
  · split at h
    · split at h
      · injection h with h
        subst h
        rfl
      · split at h
        · split at h
          · injection h
          · injection h with h
            subst h
            rfl
        · injection h with h
          subst h
          rfl
    · injection h with h
      subst h
      rfl

/-! Claim theorems. -/

/-- C3 (counterexample): the claim that a device of kind NONE never emits any
pointer event fails: an EV_SYN record on a keyboard-only device (kind NONE)
is dispatched to pointer_dev_sync, which emits SYNC unconditionally. -/
theorem C3_counterexample :
    run_events 1000 1000
      { kind := PointerKind.POINTER_NONE, x := 0, y := 0, off_x := 0, off_y := 0,
        touchpaddown := false, min_x := 0, max_x := 0, min_y := 0, max_y := 0,
        last_click := ⟨0, 0⟩, pressed_button := PressedButton.BUTTON_NONE }
      [⟨⟨0, 0⟩, EV_SYN, 0, 0⟩] =
      some ({ kind := PointerKind.POINTER_NONE, x := 0, y := 0, off_x := 0, off_y := 0,
              touchpaddown := false, min_x := 0, max_x := 0, min_y := 0, max_y := 0,
              last_click := ⟨0, 0⟩, pressed_button := PressedButton.BUTTON_NONE },
            [PointerEvent.SYNC]) ∧
    ([PointerEvent.SYNC] : List PointerEvent) ≠ [] := by
  decide

/-- C3 (amended): for a device whose pointer kind is NONE, the absolute-axis
handler emits no pointer event and leaves the state unchanged; the sync,
button and relative handlers do not gate on the kind, so EV_SYN, EV_KEY and
EV_REL records can still emit SYNC, BUTTON, MOVED and WHEEL events. -/
theorem C3_none_kind_abs_silent (pmax_x pmax_y : Int) (st : PointerState)
    (code : Nat) (v : Int) (hk : st.kind = PointerKind.POINTER_NONE) :
    pointer_dev_abs pmax_x pmax_y st code v = some (st, []) := by
  unfold pointer_dev_abs
  rw [hk]
  simp

/-- C3 (witness): the amended theorem at a concrete NONE-kind state. -/
theorem C3_none_kind_abs_silent_witness :
    pointer_dev_abs 1000 1000
      { kind := PointerKind.POINTER_NONE, x := 0, y := 0, off_x := 0, off_y := 0,
        touchpaddown := false, min_x := 0, max_x := 0, min_y := 0, max_y := 0,
        last_click := ⟨0, 0⟩, pressed_button := PressedButton.BUTTON_NONE }
      ABS_X 700 =
      some ({ kind := PointerKind.POINTER_NONE, x := 0, y := 0, off_x := 0, off_y := 0,
              touchpaddown := false, min_x := 0, max_x := 0, min_y := 0, max_y := 0,
              last_click := ⟨0, 0⟩, pressed_button := PressedButton.BUTTON_NONE }, []) :=
  C3_none_kind_abs_silent 1000 1000 _ ABS_X 700 rfl

/-- C5: for a VMOUSE device whose calibration span is nonzero, an ABS_X event
with value v sets the cursor to the truncated quotient
(v - min_x) * pmax_x / (max_x - min_x) and emits MOVED; analogously for
ABS_Y. -/
theorem C5_vmouse_rescale (pmax_x pmax_y : Int) (st : PointerState) (v : Int)
    (hk : st.kind = PointerKind.POINTER_VMOUSE) :
    (st.max_x - st.min_x ≠ 0 →
      pointer_dev_abs pmax_x pmax_y st ABS_X v =
        some ({ st with x := Int.tdiv ((v - st.min_x) * pmax_x) (st.max_x - st.min_x) },
              [PointerEvent.MOVED
                (Int.tdiv ((v - st.min_x) * pmax_x) (st.max_x - st.min_x)) st.y])) ∧
    (st.max_y - st.min_y ≠ 0 →
      pointer_dev_abs pmax_x pmax_y st ABS_Y v =
        some ({ st with y := Int.tdiv ((v - st.min_y) * pmax_y) (st.max_y - st.min_y) },
              [PointerEvent.MOVED st.x
                (Int.tdiv ((v - st.min_y) * pmax_y) (st.max_y - st.min_y))])) := by
  unfold pointer_dev_abs
  rw [hk]
  constructor
  · intro h
    simp [h, ABS_X]
  · intro h
    simp [h, ABS_X, ABS_Y]

/-- C5 (witness): calibration min 0, max 2000, manager max_x 1000, ABS_X 1000
lands the cursor at 500. -/
theorem C5_vmouse_rescale_witness :
    pointer_dev_abs 1000 1000
      { kind := PointerKind.POINTER_VMOUSE, x := 0, y := 0, off_x := 0, off_y := 0,
        touchpaddown := false, min_x := 0, max_x := 2000, min_y := 0, max_y := 2000,
        last_click := ⟨0, 0⟩, pressed_button := PressedButton.BUTTON_NONE }
      ABS_X 1000 =
      some ({ kind := PointerKind.POINTER_VMOUSE, x := 500, y := 0, off_x := 0, off_y := 0,
              touchpaddown := false, min_x := 0, max_x := 2000, min_y := 0, max_y := 2000,
              last_click := ⟨0, 0⟩, pressed_button := PressedButton.BUTTON_NONE },
            [PointerEvent.MOVED 500 0]) :=
  ((C5_vmouse_rescale 1000 1000 _ 1000 rfl).1 (by decide)).trans (by decide)

/-- C7: the final unref frees every device in list order, destroys the keymap
description, frees the KEY hook, unrefs the event loop and frees the manager,
but never frees the pointer hook: the action list of the source omits it, so
the claim that both observer hooks are freed does not hold of the code. -/
theorem C7_unref_teardown (devs : List String) :
    (uterm_input_unref { ref := 1, devices := devs }).2 =
      devs.map TeardownAction.free_dev ++
        [TeardownAction.uxkb_desc_destroy, TeardownAction.hook_free_key,
         TeardownAction.eloop_unref, TeardownAction.free_input] ∧
    TeardownAction.hook_free_pointer ∉ (uterm_input_unref { ref := 1, devices := devs }).2 := by
  unfold uterm_input_unref
  simp

/-- C8 (counterexample): with a cell height of 16 the band height / 4 is 4,
and a scaled thickness of 214 gives a computed stripe thickness of 5; the
claim says the painted thickness is then clamped to 4, but the source resets
it to 1. -/
theorem C8_counterexample :
    (draw_underline 16 640 214 (-64)).thickness = 1 ∧
    (16 : Int) / 4 = 4 ∧
    (draw_underline 16 640 214 (-64)).thickness ≠ (16 : Int) / 4 := by
  decide

/-- C8 (amended): the stripe thickness is 1.5 times the scaled underline
thickness over 64 whenever that value lies in [1, height / 4]; a value below
1 or above height / 4 is replaced by 1 (not by height / 4); the stripe starts
at row (ascender - scaled position) / 64 whenever that row plus the final
thickness does not exceed the buffer height. -/
theorem C8_underline_geometry (height ascender t p : Int) :
    (1 ≤ (t + t / 2) / 64 → (t + t / 2) / 64 ≤ height / 4 →
      (draw_underline height ascender t p).thickness = (t + t / 2) / 64) ∧
    ((t + t / 2) / 64 < 1 → (draw_underline height ascender t p).thickness = 1) ∧
    ((t + t / 2) / 64 > height / 4 → (draw_underline height ascender t p).thickness = 1) ∧
    ((ascender - p) / 64 + (draw_underline height ascender t p).thickness ≤ height →
      (draw_underline height ascender t p).position = (ascender - p) / 64) := by
  have hth : (draw_underline height ascender t p).thickness =
      (if (t + t / 2) / 64 < 1 ∨ (t + t / 2) / 64 > height / 4 then 1
       else (t + t / 2) / 64) := rfl
  have hpos : (draw_underline height ascender t p).position =
      (if (ascender - p) / 64 + (draw_underline height ascender t p).thickness > height
       then height - (draw_underline height ascender t p).thickness
       else (ascender - p) / 64) := rfl
  refine ⟨?_, ?_, ?_, ?_⟩
  · intro h1 h2
    rw [hth, if_neg (by omega)]
  · intro h1
    rw [hth, if_pos (Or.inl h1)]
  · intro h1
    rw [hth, if_pos (Or.inr h1)]
  · intro h1
    rw [hpos, if_neg (by omega)]

/-- C8 (witness): height 16, scaled thickness 100 gives stripe thickness 2
(within the band), and scaled position -64 with ascender 640 starts the
stripe at row 11. -/
theorem C8_underline_geometry_witness :
    (draw_underline 16 640 100 (-64)).thickness = 2 ∧
    (draw_underline 16 640 100 (-64)).position = 11 :=
  ⟨((C8_underline_geometry 16 640 100 (-64)).1 (by decide) (by decide)).trans (by decide),
   ((C8_underline_geometry 16 640 100 (-64)).2.2.2 (by decide)).trans (by decide)⟩

/-- C4: a BTN_LEFT press (value 1) emits BUTTON(0, true, d) where d holds
exactly when the elapsed monotonic milliseconds since the previous press are
strictly below 500, and last_click is updated on every press regardless of
the outcome; a BTN_LEFT release (value 0) emits BUTTON(0, false, false) and
leaves last_click alone.  The last conjunct identifies the computed quantity
with the exact millisecond distance for clock samples at millisecond
granularity. -/
theorem C4_double_click (now : Timespec) (st : PointerState)
    (hmono : 0 ≤ elapsed_ms st.last_click now)
    (hrange : elapsed_ms st.last_click now < 2 ^ 64) :
    (pointer_dev_button now st BTN_LEFT 1 =
      ({ st with last_click := now },
       [PointerEvent.BUTTON 0 true (decide (elapsed_ms st.last_click now < 500))])) ∧
    (pointer_dev_button now st BTN_LEFT 0 = (st, [PointerEvent.BUTTON 0 false false])) ∧
    (∀ s1 m1 s2 m2 : Int,
       elapsed_ms ⟨s1, m1 * 1000000⟩ ⟨s2, m2 * 1000000⟩ =
         (s2 * 1000 + m2) - (s1 * 1000 + m1)) := by
  refine ⟨?_, ?_, ?_⟩
  · unfold pointer_dev_button
    have h : elapsed_u64 st.last_click now = elapsed_ms st.last_click now := by
      unfold elapsed_u64
      exact Int.emod_eq_of_lt hmono hrange
    simp [h]
  · unfold pointer_dev_button
    norm_num
  · intro s1 m1 s2 m2
    unfold elapsed_ms
    have h : (m2 * 1000000 - m1 * 1000000 : Int) = (m2 - m1) * 1000000 := by ring
    simp only [h]
    rw [Int.mul_tdiv_cancel _ (by norm_num)]
    ring

/-- C4 (witness): a press 200 ms after the previous one carries
double_click true; a release emits BUTTON(0, false, false). -/
theorem C4_double_click_witness :
    (pointer_dev_button ⟨0, 200000000⟩
      { kind := PointerKind.POINTER_MOUSE, x := 0, y := 0, off_x := 0, off_y := 0,
        touchpaddown := false, min_x := 0, max_x := 0, min_y := 0, max_y := 0,
        last_click := ⟨0, 0⟩, pressed_button := PressedButton.BUTTON_NONE }
      BTN_LEFT 1 =
      ({ kind := PointerKind.POINTER_MOUSE, x := 0, y := 0, off_x := 0, off_y := 0,
         touchpaddown := false, min_x := 0, max_x := 0, min_y := 0, max_y := 0,
         last_click := ⟨0, 200000000⟩, pressed_button := PressedButton.BUTTON_NONE },
       [PointerEvent.BUTTON 0 true true])) ∧
    (pointer_dev_button ⟨0, 200000000⟩
      { kind := PointerKind.POINTER_MOUSE, x := 0, y := 0, off_x := 0, off_y := 0,
        touchpaddown := false, min_x := 0, max_x := 0, min_y := 0, max_y := 0,
        last_click := ⟨0, 0⟩, pressed_button := PressedButton.BUTTON_NONE }
      BTN_LEFT 0 =
      ({ kind := PointerKind.POINTER_MOUSE, x := 0, y := 0, off_x := 0, off_y := 0,
         touchpaddown := false, min_x := 0, max_x := 0, min_y := 0, max_y := 0,
         last_click := ⟨0, 0⟩, pressed_button := PressedButton.BUTTON_NONE },
       [PointerEvent.BUTTON 0 false false])) :=
  ⟨((C4_double_click ⟨0, 200000000⟩ _ (by decide) (by decide)).1).trans (by decide),
   (C4_double_click ⟨0, 200000000⟩ _ (by decide) (by decide)).2.1⟩

/-- C2: touchpad drag-offset semantics of pointer_dev_abs.  While the
touchpad-down flag is set an ABS event re-anchors the offset to the current
cursor so the cursor does not move; with the flag clear the cursor becomes
offset plus value, and a clamp at either edge rebalances the offset (to -v at
the low edge, to the manager maximum minus v at the high edge); a MOVED event
is emitted after each update.  Stated for ABS_X and, symmetrically, ABS_Y. -/
theorem C2_touchpad_drag (pmax_x pmax_y : Int) (st : PointerState) (v : Int)
    (hk : st.kind = PointerKind.POINTER_TOUCHPAD)
    (hpx : 0 ≤ pmax_x) (hpy : 0 ≤ pmax_y) :
    (st.touchpaddown = true → 0 ≤ st.x → st.x ≤ pmax_x →
      pointer_dev_abs pmax_x pmax_y st ABS_X v =
        some ({ st with x := st.x, off_x := st.x - v }, [PointerEvent.MOVED st.x st.y])) ∧
    (st.touchpaddown = false → 0 ≤ st.off_x + v → st.off_x + v ≤ pmax_x →
      pointer_dev_abs pmax_x pmax_y st ABS_X v =
        some ({ st with x := st.off_x + v, off_x := st.off_x },
              [PointerEvent.MOVED (st.off_x + v) st.y])) ∧
    (st.touchpaddown = false → st.off_x + v < 0 →
      pointer_dev_abs pmax_x pmax_y st ABS_X v =
        some ({ st with x := 0, off_x := -v }, [PointerEvent.MOVED 0 st.y])) ∧
    (st.touchpaddown = false → st.off_x + v > pmax_x →
      pointer_dev_abs pmax_x pmax_y st ABS_X v =
        some ({ st with x := pmax_x, off_x := pmax_x - v },
              [PointerEvent.MOVED pmax_x st.y])) ∧
    (st.touchpaddown = true → 0 ≤ st.y → st.y ≤ pmax_y →
      pointer_dev_abs pmax_x pmax_y st ABS_Y v =
        some ({ st with y := st.y, off_y := st.y - v }, [PointerEvent.MOVED st.x st.y])) ∧
    (st.touchpaddown = false → 0 ≤ st.off_y + v → st.off_y + v ≤ pmax_y →
      pointer_dev_abs pmax_x pmax_y st ABS_Y v =
        some ({ st with y := st.off_y + v, off_y := st.off_y },
              [PointerEvent.MOVED st.x (st.off_y + v)])) ∧
    (st.touchpaddown = false → st.off_y + v < 0 →
      pointer_dev_abs pmax_x pmax_y st ABS_Y v =
        some ({ st with y := 0, off_y := -v }, [PointerEvent.MOVED st.x 0])) ∧
    (st.touchpaddown = false → st.off_y + v > pmax_y →
      pointer_dev_abs pmax_x pmax_y st ABS_Y v =
        some ({ st with y := pmax_y, off_y := pmax_y - v },
              [PointerEvent.MOVED st.x pmax_y])) := by
  unfold pointer_dev_abs
  rw [hk]
  refine ⟨?_, ?_, ?_, ?_, ?_, ?_, ?_, ?_⟩
  · intro hd h0 h1
    simp [hd, show st.x - v + v = st.x from by ring,
      show ¬ st.x < 0 from by omega, show ¬ st.x > pmax_x from by omega]
  · intro hd h0 h1
    simp [hd, show ¬ st.off_x + v < 0 from by omega,
      show ¬ st.off_x + v > pmax_x from by omega]
  · intro hd h0
    simp [hd, h0, show ¬ (0 : Int) > pmax_x from by omega]
  · intro hd h0
    simp [hd, h0, show ¬ st.off_x + v < 0 from by omega]
  · intro hd h0 h1
    simp [hd, show st.y - v + v = st.y from by ring,
      show ¬ st.y < 0 from by omega, show ¬ st.y > pmax_y from by omega, ABS_Y, ABS_X]
  · intro hd h0 h1
    simp [hd, show ¬ st.off_y + v < 0 from by omega,
      show ¬ st.off_y + v > pmax_y from by omega, ABS_Y, ABS_X]
  · intro hd h0
    simp [hd, h0, show ¬ (0 : Int) > pmax_y from by omega, ABS_Y, ABS_X]
  · intro hd h0
    simp [hd, h0, show ¬ st.off_y + v < 0 from by omega, ABS_Y, ABS_X]

/-- C2 (witness): cursor at x = 500 with touchpad-down set, ABS_X 1200
records offset -700 and emits MOVED(500, 0); the following SYNC clears the
flag; ABS_X 1250 then moves the cursor to -700 + 1250 = 550. -/
theorem C2_touchpad_drag_witness :
    (pointer_dev_abs 1000 1000
      { kind := PointerKind.POINTER_TOUCHPAD, x := 500, y := 0, off_x := 0, off_y := 0,
        touchpaddown := true, min_x := 0, max_x := 2000, min_y := 0, max_y := 2000,
        last_click := ⟨0, 0⟩, pressed_button := PressedButton.BUTTON_NONE }
      ABS_X 1200 =
      some ({ kind := PointerKind.POINTER_TOUCHPAD, x := 500, y := 0, off_x := -700,
              off_y := 0, touchpaddown := true, min_x := 0, max_x := 2000, min_y := 0,
              max_y := 2000, last_click := ⟨0, 0⟩,
              pressed_button := PressedButton.BUTTON_NONE },
            [PointerEvent.MOVED 500 0])) ∧
    (pointer_dev_sync
      { kind := PointerKind.POINTER_TOUCHPAD, x := 500, y := 0, off_x := -700, off_y := 0,
        touchpaddown := true, min_x := 0, max_x := 2000, min_y := 0, max_y := 2000,
        last_click := ⟨0, 0⟩, pressed_button := PressedButton.BUTTON_NONE } =
      ({ kind := PointerKind.POINTER_TOUCHPAD, x := 500, y := 0, off_x := -700, off_y := 0,
         touchpaddown := false, min_x := 0, max_x := 2000, min_y := 0, max_y := 2000,
         last_click := ⟨0, 0⟩, pressed_button := PressedButton.BUTTON_NONE },
       [PointerEvent.SYNC])) ∧
    (pointer_dev_abs 1000 1000
      { kind := PointerKind.POINTER_TOUCHPAD, x := 500, y := 0, off_x := -700, off_y := 0,
        touchpaddown := false, min_x := 0, max_x := 2000, min_y := 0, max_y := 2000,
        last_click := ⟨0, 0⟩, pressed_button := PressedButton.BUTTON_NONE }
      ABS_X 1250 =
      some ({ kind := PointerKind.POINTER_TOUCHPAD, x := 550, y := 0, off_x := -700,
              off_y := 0, touchpaddown := false, min_x := 0, max_x := 2000, min_y := 0,
              max_y := 2000, last_click := ⟨0, 0⟩,
              pressed_button := PressedButton.BUTTON_NONE },
            [PointerEvent.MOVED 550 0])) :=
  ⟨((C2_touchpad_drag 1000 1000 _ 1200 rfl (by decide) (by decide)).1
      rfl (by decide) (by decide)).trans (by decide),
   rfl,
   ((C2_touchpad_drag 1000 1000 _ 1250 rfl (by decide) (by decide)).2.1
      rfl (by decide) (by decide)).trans (by decide)⟩

/-- C9: on a VMOUSE device the absolute handler is well-defined (avoids the
division error branch) exactly when the calibration span of the touched axis
is nonzero; and a degenerate span is reachable, because input_init_abs
reports success without setting the calibration when the open fails, so
device construction yields a VMOUSE with min_x = max_x = 0. -/
theorem C9_vmouse_division_guard (pmax_x pmax_y : Int) (st : PointerState) (v : Int)
    (hk : st.kind = PointerKind.POINTER_VMOUSE) :
    ((pointer_dev_abs pmax_x pmax_y st ABS_X v).isSome ↔ st.max_x - st.min_x ≠ 0) ∧
    ((pointer_dev_abs pmax_x pmax_y st ABS_Y v).isSome ↔ st.max_y - st.min_y ≠ 0) ∧
    (∀ caps : Capabilities, caps.abs = true → caps.touch = false → caps.rel = false →
      ∀ node : AbsProbe, node.open_ok = false →
        input_new_dev_pointer caps node =
          some { fresh_pointer with kind := PointerKind.POINTER_VMOUSE } ∧
        ({ fresh_pointer with kind := PointerKind.POINTER_VMOUSE } : PointerState).max_x -
          ({ fresh_pointer with kind := PointerKind.POINTER_VMOUSE } : PointerState).min_x
          = 0) := by
  refine ⟨?_, ?_, ?_⟩
  · unfold pointer_dev_abs
    rw [hk]
    by_cases h : st.max_x - st.min_x = 0 <;> simp [h]
  · unfold pointer_dev_abs
    rw [hk]
    by_cases h : st.max_y - st.min_y = 0 <;> simp [h, ABS_Y, ABS_X]
  · intro caps hab hto hre node hop
    refine ⟨?_, by decide⟩
    unfold input_new_dev_pointer input_init_abs
    rw [hab, hto, hre, hop]
    simp

/-- C9 (witness): the degenerate device construction followed by an ABS_X
record hits the error branch (none). -/
theorem C9_vmouse_division_guard_witness :
    input_new_dev_pointer
      { keys := false, leds := false, rel := false, abs := true,
        mouse_btn := false, touch := false, wheel := false }
      { open_ok := false, absinfo_x := none, absinfo_y := none } =
      some { fresh_pointer with kind := PointerKind.POINTER_VMOUSE } ∧
    pointer_dev_abs 1000 1000 { fresh_pointer with kind := PointerKind.POINTER_VMOUSE }
      ABS_X 7 = none :=
  ⟨((C9_vmouse_division_guard 1000 1000
      { fresh_pointer with kind := PointerKind.POINTER_VMOUSE } 7 rfl).2.2
      _ rfl rfl rfl _ rfl).1,
   Option.not_isSome_iff_eq_none.mp (fun h =>
     (by decide :
       ¬ (({ fresh_pointer with kind := PointerKind.POINTER_VMOUSE } : PointerState).max_x -
          ({ fresh_pointer with kind := PointerKind.POINTER_VMOUSE } : PointerState).min_x
          ≠ 0))
     ((C9_vmouse_division_guard 1000 1000
        { fresh_pointer with kind := PointerKind.POINTER_VMOUSE } 7 rfl).1.mp h))⟩

/-- C10: an EV_KEY record with code BTN_TOUCH sets the touchpad-down flag for
every value (including a release with value 0) and emits nothing; a set flag
survives every record that is not an EV_SYN; the sync handler clears it; and
consequently an absolute event arriving after a BTN_TOUCH release but before
the next SYN re-anchors the drag offset exactly as a touch-down would. -/
theorem C10_btn_touch_flag (pmax_x pmax_y : Int) (now : Timespec) (st : PointerState)
    (v : Int) (value : Int) :
    ((pointer_dev_button now st BTN_TOUCH value).1.touchpaddown = true) ∧
    ((pointer_dev_button now st BTN_TOUCH value).2 = []) ∧
    (∀ type code val p, st.touchpaddown = true → type ≠ EV_SYN →
       notify_event pmax_x pmax_y now st type code val = some p →
       p.1.touchpaddown = true) ∧
    ((pointer_dev_sync st).1.touchpaddown = false) ∧
    (st.kind = PointerKind.POINTER_TOUCHPAD → 0 ≤ st.x → st.x ≤ pmax_x →
       pointer_dev_abs pmax_x pmax_y (pointer_dev_button now st BTN_TOUCH 0).1 ABS_X v =
         some ({ st with touchpaddown := true, off_x := st.x - v },
               [PointerEvent.MOVED st.x st.y])) := by
  refine ⟨?_, ?_, ?_, ?_, ?_⟩
  · unfold pointer_dev_button
    simp [BTN_TOUCH, BTN_LEFT, BTN_RIGHT, BTN_TOOL_DOUBLETAP, BTN_TOOL_TRIPLETAP, BTN_MIDDLE]
  · unfold pointer_dev_button
    simp [BTN_TOUCH, BTN_LEFT, BTN_RIGHT, BTN_TOOL_DOUBLETAP, BTN_TOOL_TRIPLETAP, BTN_MIDDLE]
  · intro type code val p hdown htype hrun
    unfold notify_event at hrun
    by_cases h1 : type = EV_KEY
    · rw [if_pos h1] at hrun
      injection hrun with hrun
      rw [← hrun]
      exact pointer_dev_button_flag now st code val hdown
    · rw [if_neg h1] at hrun
      by_cases h2 : type = EV_REL
      · rw [if_pos h2] at hrun
        injection hrun with hrun
        rw [← hrun]
        rw [pointer_dev_rel_flag]
        exact hdown
      · rw [if_neg h2] at hrun
        by_cases h3 : type = EV_ABS
        · rw [if_pos h3] at hrun
          rw [pointer_dev_abs_flag pmax_x pmax_y st code val p hrun]
          exact hdown
        · rw [if_neg h3, if_neg htype] at hrun
          injection hrun with hrun
          rw [← hrun]
          exact hdown
  · rfl
  · intro hkind h0 h1
    have hbtn : (pointer_dev_button now st BTN_TOUCH 0).1 = { st with touchpaddown := true } := by
      unfold pointer_dev_button
      simp [BTN_TOUCH, BTN_LEFT, BTN_RIGHT, BTN_TOOL_DOUBLETAP, BTN_TOOL_TRIPLETAP, BTN_MIDDLE]
    rw [hbtn]
    unfold pointer_dev_abs
    simp [hkind, show st.x - v + v = st.x from by ring,
      show ¬ st.x < 0 from by omega, show ¬ st.x > pmax_x from by omega]

/-- C10 (witness): BTN_TOUCH with value 0 on a touchpad at x = 500, then
ABS_X 1200, re-anchors the offset to -700 without moving the cursor. -/
theorem C10_btn_touch_flag_witness :
    pointer_dev_abs 1000 1000
      (pointer_dev_button ⟨0, 0⟩
        { kind := PointerKind.POINTER_TOUCHPAD, x := 500, y := 0, off_x := 0, off_y := 0,
          touchpaddown := false, min_x := 0, max_x := 2000, min_y := 0, max_y := 2000,
          last_click := ⟨0, 0⟩, pressed_button := PressedButton.BUTTON_NONE }
        BTN_TOUCH 0).1
      ABS_X 1200 =
      some ({ kind := PointerKind.POINTER_TOUCHPAD, x := 500, y := 0, off_x := -700,
              off_y := 0, touchpaddown := true, min_x := 0, max_x := 2000, min_y := 0,
              max_y := 2000, last_click := ⟨0, 0⟩,
              pressed_button := PressedButton.BUTTON_NONE },
            [PointerEvent.MOVED 500 0]) :=
  ((C10_btn_touch_flag 1000 1000 ⟨0, 0⟩ _ 1200 0).2.2.2.2
      rfl (by decide) (by decide)).trans (by decide)

/-- C6: uterm_input_add_dev creates and links a device exactly when the
probed capabilities contain KEYS (regardless of the mouse flag), or the mouse
flag is set and the capabilities contain REL with MOUSE_BTN, ABS with TOUCH,
or ABS with MOUSE_BTN; otherwise (including a failed probe, which yields zero
capabilities) the device list is unchanged. -/
theorem C6_add_dev_decision (devices : List String) (node : EvdevNode) (name : String)
    (mouse : Bool) :
    (uterm_input_add_dev_creates node mouse = true ↔
      ((probe_device_capabilities node).keys = true ∨
       (mouse = true ∧
         (((probe_device_capabilities node).rel = true ∧
           (probe_device_capabilities node).mouse_btn = true) ∨
          ((probe_device_capabilities node).abs = true ∧
           (probe_device_capabilities node).touch = true) ∨
          ((probe_device_capabilities node).abs = true ∧
           (probe_device_capabilities node).mouse_btn = true))))) ∧
    (uterm_input_add_dev_creates node mouse = true →
      uterm_input_add_dev devices node name mouse = name :: devices) ∧
    (uterm_input_add_dev_creates node mouse = false →
      uterm_input_add_dev devices node name mouse = devices) ∧
    (node.open_ok = false →
      probe_device_capabilities node = noCaps ∧
      uterm_input_add_dev devices node name mouse = devices) := by
  refine ⟨?_, ?_, ?_, ?_⟩
  · simp only [uterm_input_add_dev_creates]
    cases hk : (probe_device_capabilities node).keys
    · cases hr : (probe_device_capabilities node).rel <;>
        cases ha : (probe_device_capabilities node).abs <;>
        cases hm : (probe_device_capabilities node).mouse_btn <;>
        cases ht : (probe_device_capabilities node).touch <;>
        cases mouse <;> simp
    · simp
  · intro h
    unfold uterm_input_add_dev
    rw [h]
    rfl
  · intro h
    unfold uterm_input_add_dev
    rw [h]
    rfl
  · intro h
    have hp : probe_device_capabilities node = noCaps := by
      unfold probe_device_capabilities
      rw [h]
      rfl
    refine ⟨hp, ?_⟩
    unfold uterm_input_add_dev uterm_input_add_dev_creates
    rw [hp]
    rfl

/-- C6 (witness): with the mouse flag off, a keyboard node (a key in the
keyboard range) is added, while a pure mouse node (REL with BTN_LEFT only)
is not. -/
theorem C6_add_dev_decision_witness :
    uterm_input_add_dev []
      { open_ok := true, evbits_ok := true, evbits := fun n => n == EV_KEY,
        keybits_ok := true, keybits := fun n => n == 30,
        relbits_ok := true, relbits := fun _ => false,
        absbits_ok := true, absbits := fun _ => false }
      "kbd" false = ["kbd"] ∧
    uterm_input_add_dev []
      { open_ok := true, evbits_ok := true,
        evbits := fun n => n == EV_SYN || n == EV_KEY || n == EV_REL,
        keybits_ok := true, keybits := fun n => n == BTN_LEFT,
        relbits_ok := true, relbits := fun n => n == REL_X || n == REL_Y,
        absbits_ok := true, absbits := fun _ => false }
      "mouse" false = [] :=
  ⟨(C6_add_dev_decision []
      { open_ok := true, evbits_ok := true, evbits := fun n => n == EV_KEY,
        keybits_ok := true, keybits := fun n => n == 30,
        relbits_ok := true, relbits := fun _ => false,
        absbits_ok := true, absbits := fun _ => false }
      "kbd" false).2.1 (by decide),
   (C6_add_dev_decision []
      { open_ok := true, evbits_ok := true,
        evbits := fun n => n == EV_SYN || n == EV_KEY || n == EV_REL,
        keybits_ok := true, keybits := fun n => n == BTN_LEFT,
        relbits_ok := true, relbits := fun n => n == REL_X || n == REL_Y,
        absbits_ok := true, absbits := fun _ => false }
      "mouse" false).2.2.1 (by decide)⟩

/-- A singleton MOVED output whose coordinates are bounded satisfies the
bounded-MOVED property. -/
theorem moved_singleton_bound {pmax_x pmax_y px py : Int}
    (h0 : 0 ≤ px) (h1 : px ≤ pmax_x) (h2 : 0 ≤ py) (h3 : py ≤ pmax_y) :
    ∀ e ∈ [PointerEvent.MOVED px py], ∀ a b, e = PointerEvent.MOVED a b →
      0 ≤ a ∧ a ≤ pmax_x ∧ 0 ≤ b ∧ b ≤ pmax_y := by
  intro e he a b heq
  rw [List.mem_singleton] at he
  subst he
  injection heq with ha hb
  subst ha
  subst hb
  exact ⟨h0, h1, h2, h3⟩

/-- An output without MOVED events satisfies the bounded-MOVED property. -/
theorem no_moved_bound {pmax_x pmax_y : Int} {l : List PointerEvent}
    (h : ∀ e ∈ l, ∀ a b : Int, e ≠ PointerEvent.MOVED a b) :
    ∀ e ∈ l, ∀ a b, e = PointerEvent.MOVED a b →
      0 ≤ a ∧ a ≤ pmax_x ∧ 0 ≤ b ∧ b ≤ pmax_y := by
  intro e he a b heq
  exact absurd heq (h e he a b)

/-- The button decoder leaves the cursor and the statics alone and emits no
MOVED events. -/
theorem pointer_dev_button_xy (now : Timespec) (st : PointerState) (code : Nat)
    (value : Int) :
    (pointer_dev_button now st code value).1.x = st.x ∧
    (pointer_dev_button now st code value).1.y = st.y ∧
    statics (pointer_dev_button now st code value).1 = statics st ∧
    (∀ e ∈ (pointer_dev_button now st code value).2, ∀ a b : Int,
       e ≠ PointerEvent.MOVED a b) := by
  simp only [pointer_dev_button]
  split
  · split <;> simp [statics]
  · split
    · simp [statics]
    · split
      · simp [statics]
      · split <;> simp [statics]

/-- The relative-axis handler preserves the bounds invariant and the statics
and only emits MOVED events whose coordinates satisfy the bounds. -/
theorem pointer_dev_rel_spec (pmax_x pmax_y : Int) (hx : 0 ≤ pmax_x) (hy : 0 ≤ pmax_y)
    (st : PointerState) (code : Nat) (value : Int)
    (hst : in_bounds pmax_x pmax_y st) :
    in_bounds pmax_x pmax_y (pointer_dev_rel pmax_x pmax_y st code value).1 ∧
    statics (pointer_dev_rel pmax_x pmax_y st code value).1 = statics st ∧
    (∀ e ∈ (pointer_dev_rel pmax_x pmax_y st code value).2, ∀ a b,
       e = PointerEvent.MOVED a b → 0 ≤ a ∧ a ≤ pmax_x ∧ 0 ≤ b ∧ b ≤ pmax_y) := by
  obtain ⟨hx0, hx1, hy0, hy1⟩ := hst
  simp only [pointer_dev_rel]
  split
  · refine ⟨⟨?_, ?_, hy0, hy1⟩, by simp [statics], ?_⟩
    · dsimp only
      split_ifs <;> omega
    · dsimp only
      split_ifs <;> omega
    · apply moved_singleton_bound
      all_goals dsimp only
      all_goals try split_ifs
      all_goals omega
  · split
    · refine ⟨⟨hx0, hx1, ?_, ?_⟩, by simp [statics], ?_⟩
      · dsimp only
        split_ifs <;> omega
      · dsimp only
        split_ifs <;> omega
      · apply moved_singleton_bound
        all_goals dsimp only
        all_goals try split_ifs
        all_goals omega
    · split
      · exact ⟨⟨hx0, hx1, hy0, hy1⟩, rfl, no_moved_bound (by simp)⟩
      · exact ⟨⟨hx0, hx1, hy0, hy1⟩, rfl, by simp⟩

/-- The absolute-axis handler, under the VMOUSE calibration preconditions,
succeeds, preserves the bounds invariant and the statics, and only emits
bounded MOVED events. -/
theorem pointer_dev_abs_spec (pmax_x pmax_y : Int) (hx : 0 ≤ pmax_x) (hy : 0 ≤ pmax_y)
    (st : PointerState) (code : Nat) (value : Int)
    (hst : in_bounds pmax_x pmax_y st)
    (hcalx : st.kind = PointerKind.POINTER_VMOUSE → st.min_x < st.max_x)
    (hcaly : st.kind = PointerKind.POINTER_VMOUSE → st.min_y < st.max_y)
    (hvx : st.kind = PointerKind.POINTER_VMOUSE → code = ABS_X →
      st.min_x ≤ value ∧ value ≤ st.max_x)
    (hvy : st.kind = PointerKind.POINTER_VMOUSE → code = ABS_Y →
      st.min_y ≤ value ∧ value ≤ st.max_y) :
    ∃ p, pointer_dev_abs pmax_x pmax_y st code value = some p ∧
      in_bounds pmax_x pmax_y p.1 ∧ statics p.1 = statics st ∧
      (∀ e ∈ p.2, ∀ a b, e = PointerEvent.MOVED a b →
        0 ≤ a ∧ a ≤ pmax_x ∧ 0 ≤ b ∧ b ≤ pmax_y) := by
  obtain ⟨hx0, hx1, hy0, hy1⟩ := hst
  simp only [pointer_dev_abs]
  by_cases hc : code = ABS_X
  · rw [if_pos hc]
    by_cases hk : st.kind = PointerKind.POINTER_TOUCHPAD
    · rw [if_pos hk]
      refine ⟨_, rfl, ⟨?_, ?_, hy0, hy1⟩, by simp [statics], ?_⟩
      · dsimp only
        split_ifs <;> omega
      · dsimp only
        split_ifs <;> omega
      · apply moved_singleton_bound
        all_goals dsimp only
        all_goals try split_ifs
        all_goals omega
    · rw [if_neg hk]
      by_cases hm : st.kind = PointerKind.POINTER_VMOUSE
      · rw [if_pos hm]
        have hspan : 0 < st.max_x - st.min_x := by
          have := hcalx hm
          omega
        rw [if_neg (by omega)]
        obtain ⟨hr0, hr1⟩ := hvx hm hc
        obtain ⟨hq0, hq1⟩ := tdiv_nonneg_le hspan
          (mul_nonneg (by omega) hx)
          (mul_le_mul_of_nonneg_right (by omega : value - st.min_x ≤ st.max_x - st.min_x) hx)
        exact ⟨_, rfl, ⟨hq0, hq1, hy0, hy1⟩, by simp [statics],
          moved_singleton_bound hq0 hq1 hy0 hy1⟩
      · rw [if_neg hm]
        exact ⟨_, rfl, ⟨hx0, hx1, hy0, hy1⟩, rfl, by simp⟩
  · rw [if_neg hc]
    by_cases hc2 : code = ABS_Y
    · rw [if_pos hc2]
      by_cases hk : st.kind = PointerKind.POINTER_TOUCHPAD
      · rw [if_pos hk]
        refine ⟨_, rfl, ⟨hx0, hx1, ?_, ?_⟩, by simp [statics], ?_⟩
        · dsimp only
          split_ifs <;> omega
        · dsimp only
          split_ifs <;> omega
        · apply moved_singleton_bound
          all_goals dsimp only
          all_goals try split_ifs
          all_goals omega
      · rw [if_neg hk]
        by_cases hm : st.kind = PointerKind.POINTER_VMOUSE
        · rw [if_pos hm]
          have hspan : 0 < st.max_y - st.min_y := by
            have := hcaly hm
            omega
          rw [if_neg (by omega)]
          obtain ⟨hr0, hr1⟩ := hvy hm hc2
          obtain ⟨hq0, hq1⟩ := tdiv_nonneg_le hspan
            (mul_nonneg (by omega) hy)
            (mul_le_mul_of_nonneg_right (by omega : value - st.min_y ≤ st.max_y - st.min_y) hy)
          exact ⟨_, rfl, ⟨hx0, hx1, hq0, hq1⟩, by simp [statics],
            moved_singleton_bound hx0 hx1 hq0 hq1⟩
        · rw [if_neg hm]
          exact ⟨_, rfl, ⟨hx0, hx1, hy0, hy1⟩, rfl, by simp⟩
    · rw [if_neg hc2]
      exact ⟨_, rfl, ⟨hx0, hx1, hy0, hy1⟩, rfl, by simp⟩

/-- One notify_event step, under the VMOUSE preconditions, succeeds,
preserves the bounds invariant and the statics, and only emits bounded MOVED
events. -/
theorem notify_event_spec (pmax_x pmax_y : Int) (hx : 0 ≤ pmax_x) (hy : 0 ≤ pmax_y)
    (now : Timespec) (st : PointerState) (type code : Nat) (value : Int)
    (hst : in_bounds pmax_x pmax_y st)
    (hcalx : st.kind = PointerKind.POINTER_VMOUSE → st.min_x < st.max_x)
    (hcaly : st.kind = PointerKind.POINTER_VMOUSE → st.min_y < st.max_y)
    (hv : vmouse_abs_in_range st ⟨now, type, code, value⟩) :
    ∃ p, notify_event pmax_x pmax_y now st type code value = some p ∧
      in_bounds pmax_x pmax_y p.1 ∧ statics p.1 = statics st ∧
      (∀ e ∈ p.2, ∀ a b, e = PointerEvent.MOVED a b →
        0 ≤ a ∧ a ≤ pmax_x ∧ 0 ≤ b ∧ b ≤ pmax_y) := by
  unfold notify_event
  by_cases h1 : type = EV_KEY
  · rw [if_pos h1]
    obtain ⟨hbx, hby, hbs, hbm⟩ := pointer_dev_button_xy now st code value
    refine ⟨_, rfl, ?_, hbs, no_moved_bound hbm⟩
    unfold in_bounds at hst ⊢
    rw [hbx, hby]
    exact hst
  · rw [if_neg h1]
    by_cases h2 : type = EV_REL
    · rw [if_pos h2]
      obtain ⟨hbi, hbs, hbm⟩ := pointer_dev_rel_spec pmax_x pmax_y hx hy st code value
        ⟨hst.1, hst.2.1, hst.2.2.1, hst.2.2.2⟩
      exact ⟨_, rfl, hbi, hbs, hbm⟩
    · rw [if_neg h2]
      by_cases h3 : type = EV_ABS
      · rw [if_pos h3]
        exact pointer_dev_abs_spec pmax_x pmax_y hx hy st code value hst hcalx hcaly
          (fun hk hc => (hv hk h3).1 hc) (fun hk hc => (hv hk h3).2 hc)
      · rw [if_neg h3]
        by_cases h4 : type = EV_SYN
        · rw [if_pos h4]
          refine ⟨_, rfl, hst, rfl, ?_⟩
          intro e he a b heq
          rw [show (pointer_dev_sync st).2 = [PointerEvent.SYNC] from rfl] at he
          rw [List.mem_singleton] at he
          subst he
          exact absurd heq (by simp)
        · rw [if_neg h4]
          exact ⟨_, rfl, hst, rfl, by simp⟩

/-- Folding any admissible event sequence preserves the bounds invariant and
only ever emits bounded MOVED events. -/
theorem run_events_spec (pmax_x pmax_y : Int) (hx : 0 ≤ pmax_x) (hy : 0 ≤ pmax_y)
    (evts : List InputEvent) :
    ∀ st : PointerState, in_bounds pmax_x pmax_y st →
      (st.kind = PointerKind.POINTER_VMOUSE → st.min_x < st.max_x) →
      (st.kind = PointerKind.POINTER_VMOUSE → st.min_y < st.max_y) →
      (∀ e ∈ evts, vmouse_abs_in_range st e) →
      ∃ p, run_events pmax_x pmax_y st evts = some p ∧
        in_bounds pmax_x pmax_y p.1 ∧ statics p.1 = statics st ∧
        (∀ e ∈ p.2, ∀ a b, e = PointerEvent.MOVED a b →
          0 ≤ a ∧ a ≤ pmax_x ∧ 0 ≤ b ∧ b ≤ pmax_y) := by
  induction evts with
  | nil =>
    intro st hst hcx hcy hv
    exact ⟨(st, []), rfl, hst, rfl, by simp⟩
  | cons e rest ih =>
    intro st hst hcx hcy hv
    obtain ⟨p1, hp1, hb1, hs1, hm1⟩ := notify_event_spec pmax_x pmax_y hx hy e.now st
      e.type e.code e.value hst hcx hcy (hv e (List.mem_cons_self e rest))
    obtain ⟨st1, out1⟩ := p1
    obtain ⟨hk1, hn1, hxx1, hn2, hxx2⟩ := statics_fields hs1
    obtain ⟨p2, hp2, hb2, hs2, hm2⟩ := ih st1 hb1
      (by
        intro h
        rw [hn1, hxx1]
        exact hcx (hk1 ▸ h))
      (by
        intro h
        rw [hn2, hxx2]
        exact hcy (hk1 ▸ h))
      (fun e' he' => vmouse_abs_in_range_congr hs1 e'
        (hv e' (List.mem_cons_of_mem e he')))
    obtain ⟨st2, out2⟩ := p2
    refine ⟨(st2, out1 ++ out2), ?_, hb2, hs2.trans hs1, ?_⟩
    · simp only [run_events]
      rw [hp1]
      dsimp only
      rw [hp2]
    · intro e' he' a b heq
      rcases List.mem_append.mp he' with h | h
      · exact hm1 e' h a b heq
      · exact hm2 e' h a b heq

/-- C1 (counterexample): the claim fails for a VMOUSE device: with manager
maxima (1000, 1000) and calibration min 0, max 2000, an ABS_X record with the
out-of-range value 4000 emits MOVED(2000, 0), and 2000 exceeds max_x = 1000.
The VMOUSE rescale is the one path that emits MOVED without clamping. -/
theorem C1_counterexample :
    run_events 1000 1000
      { kind := PointerKind.POINTER_VMOUSE, x := 0, y := 0, off_x := 0, off_y := 0,
        touchpaddown := false, min_x := 0, max_x := 2000, min_y := 0, max_y := 2000,
        last_click := ⟨0, 0⟩, pressed_button := PressedButton.BUTTON_NONE }
      [⟨⟨0, 0⟩, EV_ABS, ABS_X, 4000⟩] =
      some ({ kind := PointerKind.POINTER_VMOUSE, x := 2000, y := 0, off_x := 0, off_y := 0,
              touchpaddown := false, min_x := 0, max_x := 2000, min_y := 0, max_y := 2000,
              last_click := ⟨0, 0⟩, pressed_button := PressedButton.BUTTON_NONE },
            [PointerEvent.MOVED 2000 0]) ∧
    ¬ ((2000 : Int) ≤ 1000) := by
  decide

/-- C1 (amended): every MOVED event emitted during any event sequence has
coordinates within [0, max_x] times [0, max_y], provided the cursor starts
within bounds, the manager maxima are nonnegative and, for a VMOUSE device,
the calibration spans are positive and every absolute value lies within its
calibration interval; on the unclamped VMOUSE rescale path an out-of-range
absolute value escapes the bounds, so the extra VMOUSE precondition is
necessary. -/
theorem C1_moved_within_bounds (pmax_x pmax_y : Int) (hx : 0 ≤ pmax_x) (hy : 0 ≤ pmax_y)
    (st : PointerState) (hst : in_bounds pmax_x pmax_y st)
    (hcalx : st.kind = PointerKind.POINTER_VMOUSE → st.min_x < st.max_x)
    (hcaly : st.kind = PointerKind.POINTER_VMOUSE → st.min_y < st.max_y)
    (evts : List InputEvent) (hv : ∀ e ∈ evts, vmouse_abs_in_range st e) :
    ∃ p, run_events pmax_x pmax_y st evts = some p ∧
      (∀ e ∈ p.2, ∀ a b, e = PointerEvent.MOVED a b →
        0 ≤ a ∧ a ≤ pmax_x ∧ 0 ≤ b ∧ b ≤ pmax_y) := by
  obtain ⟨p, hp, _, _, hm⟩ := run_events_spec pmax_x pmax_y hx hy evts st hst hcalx hcaly hv
  exact ⟨p, hp, hm⟩

/-- C1 (witness): the amended theorem at a concrete mouse device and a
single relative event. -/
theorem C1_moved_within_bounds_witness :
    ∃ p, run_events 1000 1000
      { kind := PointerKind.POINTER_MOUSE, x := 0, y := 0, off_x := 0, off_y := 0,
        touchpaddown := false, min_x := 0, max_x := 0, min_y := 0, max_y := 0,
        last_click := ⟨0, 0⟩, pressed_button := PressedButton.BUTTON_NONE }
      [⟨⟨0, 0⟩, EV_REL, REL_X, 5⟩] = some p ∧
      (∀ e ∈ p.2, ∀ a b, e = PointerEvent.MOVED a b →
        0 ≤ a ∧ a ≤ (1000 : Int) ∧ 0 ≤ b ∧ b ≤ (1000 : Int)) :=
  C1_moved_within_bounds 1000 1000 (by decide) (by decide) _
    ⟨by decide, by decide, by decide, by decide⟩
    (fun h => absurd h (by decide)) (fun h => absurd h (by decide)) _
    (fun e _ => fun hk _ => absurd hk (by decide))

end KmsconInput
